import Mathlib

/-!
Verification of the Silver Bullet session-notification scheduler
(`src/tools/silver_bullet_notifications.py`), shallowly embedded in Lean.

Modelling conventions:

* Absolute instants are integer seconds (`Int`).  Arithmetic on timezone-aware
  datetimes in the source (subtraction, comparison, `astimezone`) acts on the
  underlying absolute instant, so `astimezone` is the identity here, and the
  zone-rule-aware localization of a New-York wall-clock time is an abstract
  parameter `loc : Int → Int → Int` mapping a NY calendar date (as a day index)
  and a wall-clock time of day (in minutes) to an absolute instant in seconds.
  Theorems quantify over `loc`; witnesses instantiate it with a fixed offset.
* Files are modelled explicitly: the message-id ledger as an
  `Option (List String)` (`none` = file absent, otherwise its list of lines),
  the cleanup marker as an `Option String`.
* Fallible I/O is modelled by boolean outcome flags (e.g. `read_fails`,
  `post_ok`); the source's `except` handlers determine what each outcome does.
-/

namespace SilverBullet

/-- Model of Python's `str.strip()`: remove leading and trailing whitespace. -/
def pyStrip (s : String) : String :=
  String.mk (((s.toList.dropWhile Char.isWhitespace).reverse.dropWhile
    Char.isWhitespace).reverse)

/-- Decimal digit character, value `d` in `0..9` rendered as `'0'..'9'`. -/
def digitCh (d : Nat) : Char := Char.ofNat (48 + d)

/-- Decimal rendering of a natural number, structurally recursive on a fuel
argument so that it reduces in the kernel; `fuel = n + 1` always suffices
because the argument strictly decreases under division by 10. -/
def natDecimalGo (fuel n : Nat) : List Char :=
  match fuel with
  | 0 => []
  | fuel + 1 =>
    if n < 10 then [digitCh n]
    else natDecimalGo fuel (n / 10) ++ [digitCh (n % 10)]

/-- Decimal rendering of a natural number as a list of digit characters. -/
def natDecimal (n : Nat) : List Char := natDecimalGo (n + 1) n

/-- Model of Python's `str(int)` / f-string rendering of an integer
(the form in which a provider message id is written to the ledger file,
line 76 of the source). -/
def pyStr : Int → String
  | .ofNat n => String.mk (natDecimal n)
  | .negSucc n => String.mk ('-' :: natDecimal (n + 1))

/-- `SESSIONS_NY` entries (lines 39-43): a session name together with its
start/end wall-clock times in the reference New-York timezone, the hour and
minute fields as parsed from the `"HH:MM"` strings (lines 164-165). -/
structure SessionDef where
  name : String
  startHour : Int
  startMin : Int
  endHour : Int
  endMin : Int
deriving DecidableEq

/-- The configured session list `SESSIONS_NY` (lines 39-43). -/
def SESSIONS_NY : List SessionDef :=
  [⟨"Session 1", 3, 0, 4, 0⟩,
   ⟨"Session 2", 10, 0, 11, 0⟩,
   ⟨"Session 3", 14, 0, 15, 0⟩]

/-- The configured lead times `NOTIFICATION_MINUTES_BEFORE` (line 46). -/
def NOTIFICATION_MINUTES_BEFORE : List Int := [30, 5, 0]

/-- One element of the list built by `get_next_sessions` (lines 198-204):
the session name with the absolute start/end instants.  (The source dict also
carries the `"HH:MM"` wall-clock strings, which feed only the message text.) -/
structure SessionOcc where
  name : String
  start_utc3 : Int
  end_utc3 : Int
deriving DecidableEq

/-- `get_session_times_utc3` (lines 158-185): localize the session's NY wall
times on `ny_date` and convert to UTC+3.  `astimezone` preserves the absolute
instant, so both components are just `loc` applied to the wall times. -/
def get_session_times_utc3 (loc : Int → Int → Int) (session : SessionDef)
    (ny_date : Int) : Int × Int :=
  (loc ny_date (60 * session.startHour + session.startMin),
   loc ny_date (60 * session.endHour + session.endMin))

/-- The session dict appended by `get_next_sessions` (lines 198-204, 211-217). -/
def session_occ (loc : Int → Int → Int) (session : SessionDef) (ny_date : Int) :
    SessionOcc :=
  ⟨session.name, (get_session_times_utc3 loc session ny_date).1,
   (get_session_times_utc3 loc session ny_date).2⟩

/-- `get_next_sessions` (lines 188-219): keep today's sessions whose end has
not passed; if none remain, return every session resolved against tomorrow. -/
def get_next_sessions (loc : Int → Int → Int) (sessions : List SessionDef)
    (ny_date utc3_now : Int) : List SessionOcc :=
  let next_sessions := sessions.filterMap (fun session =>
    if utc3_now < (get_session_times_utc3 loc session ny_date).2 then
      some (session_occ loc session ny_date)
    else none)
  if next_sessions.isEmpty then
    sessions.map (fun session => session_occ loc session (ny_date + 1))
  else
    next_sessions

/-- The firing test of `check_and_send_notifications` (lines 232-233):
`0 <= time_diff <= 60` with `time_diff = notification_time - utc3_now`
in seconds. -/
def fireWindow (notification_time utc3_now : Int) : Bool :=
  decide (0 ≤ notification_time - utc3_now ∧ notification_time - utc3_now ≤ 60)

/-- `check_and_send_notifications` (lines 222-255), as the list of
(session occurrence, lead time) pairs for which a message is sent on the tick
evaluated at `utc3_now`; `notification_time = start_utc3 - minutes` (line 229). -/
def check_and_send_notifications (loc : Int → Int → Int)
    (sessions : List SessionDef) (ny_date utc3_now : Int) :
    List (SessionOcc × Int) :=
  (get_next_sessions loc sessions ny_date utc3_now).flatMap (fun session =>
    NOTIFICATION_MINUTES_BEFORE.filterMap (fun minutes =>
      if fireWindow (session.start_utc3 - 60 * minutes) utc3_now then
        some (session, minutes)
      else none))

/-- Outcome environment for one call of `send_telegram_message` (lines 52-83):
`credentials_ok` models line 54, `post_ok` a successful POST plus
`raise_for_status` (lines 66-67), `json_ok` a parsed body with `ok` set and a
`message_id` present (lines 72-74), `write_ok` a successful append of the id
to the ledger file (lines 75-76). -/
structure SendEnv where
  credentials_ok : Bool
  post_ok : Bool
  json_ok : Bool
  write_ok : Bool
  message_id : Int
deriving DecidableEq

/-- `send_telegram_message` (lines 52-83), returning its boolean result and the
ledger-file lines afterwards.  The inner `try` (lines 71-78) swallows any
failure of the json parse or of the append, so the function returns `True`
whenever the POST itself succeeded. -/
def send_telegram_message (env : SendEnv) (messages_file : List String) :
    Bool × List String :=
  if !env.credentials_ok then (false, messages_file)
  else if !env.post_ok then (false, messages_file)
  else if env.json_ok && env.write_ok then
    (true, messages_file ++ [pyStr env.message_id])
  else (true, messages_file)

/-- The ledger read of `clear_chat_history` (lines 113-114):
`[line.strip() for line in f if line.strip()]`. -/
def read_message_ids (lines : List String) : List String :=
  lines.filterMap (fun line =>
    if pyStrip line = "" then none else some (pyStrip line))

/-- The identifiers currently recorded in the ledger file
(absent file = nothing recorded). -/
def ledger_ids : Option (List String) → List String
  | none => []
  | some lines => read_message_ids lines

/-- Result of `clear_chat_history`: the ledger-file state afterwards, the ids
passed to `delete_telegram_message` in call order, and the two counters the
function logs. -/
structure ClearResult where
  messages_file : Option (List String)
  attempts : List String
  deleted_count : Nat
  failed_count : Nat
deriving DecidableEq

/-- `clear_chat_history` (lines 105-140).  `delete_message` is the boolean
result of `delete_telegram_message` per id (that function catches its own
exceptions and returns a Bool, lines 86-102).  `read_fails` injects an
exception at the ledger read (line 113), which the `except` at lines 139-140
catches: the function then returns with the file unchanged and nothing
attempted. -/
def clear_chat_history (delete_message : String → Bool)
    (messages_file : Option (List String)) (read_fails : Bool) : ClearResult :=
  match messages_file with
  | none => ⟨none, [], 0, 0⟩
  | some lines =>
    if read_fails then ⟨some lines, [], 0, 0⟩
    else
      let message_ids := read_message_ids lines
      if message_ids.isEmpty then ⟨some [], [], 0, 0⟩
      else
        ⟨some [], message_ids.reverse,
         message_ids.reverse.countP delete_message,
         message_ids.reverse.countP (fun id => !delete_message id)⟩

/-- The marker date read in `main` (lines 325-328): an absent marker file
reads as `""`, otherwise the file content is stripped. -/
def last_cleanup_date : Option String → String
  | none => ""
  | some s => pyStrip s

/-- Result of the daily-cleanup block of `main`: whether the drain ran, the
marker-file state, the ledger-file state, and the deletion attempts made. -/
structure CleanupResult where
  ran : Bool
  last_cleanup_file : Option String
  messages_file : Option (List String)
  attempts : List String
deriving DecidableEq

/-- The daily-cleanup block of `main` (lines 322-339): if the stripped marker
date differs from `today_str`, run `clear_chat_history` and overwrite the
marker with `today_str`; otherwise skip, leaving both files unchanged. -/
def daily_cleanup_check (today_str : String) (last_cleanup_file : Option String)
    (delete_message : String → Bool) (messages_file : Option (List String))
    (read_fails : Bool) : CleanupResult :=
  if last_cleanup_date last_cleanup_file ≠ today_str then
    let c := clear_chat_history delete_message messages_file read_fails
    ⟨true, some today_str, c.messages_file, c.attempts⟩
  else
    ⟨false, last_cleanup_file, messages_file, []⟩

/-- The record path of the ledger: send `ids` one after another with every
step of the transport succeeding, threading the ledger file through
(the append of lines 70-76 per send). -/
def record_message_ids : List Int → List String → List String
  | [], messages_file => messages_file
  | id :: ids, messages_file =>
    record_message_ids ids
      (send_telegram_message ⟨true, true, true, true, id⟩ messages_file).2

/-- Fixed-offset localization used by concrete witnesses: day index `d`,
wall-clock minute `m` ↦ absolute second `86400 * d + 60 * m`. -/
def locFix (d m : Int) : Int := 86400 * d + 60 * m

/-! ### Helper lemmas -/

lemma dropWhile_eq_self_of_forall {α : Type} (p : α → Bool) (l : List α)
    (h : ∀ a ∈ l, p a = false) : l.dropWhile p = l := by
  cases l with
  | nil => rfl
  | cons a l => simp [List.dropWhile_cons, h a (List.mem_cons_self a l)]

lemma pyStrip_eq_self (s : String) (h : ∀ c ∈ s.toList, c.isWhitespace = false) :
    pyStrip s = s := by
  rw [pyStrip, dropWhile_eq_self_of_forall _ _ h,
    dropWhile_eq_self_of_forall _ _ (fun a ha => h a (List.mem_reverse.mp ha)),
    List.reverse_reverse]
  cases s
  rfl

lemma digitCh_not_ws (d : Nat) (h : d < 10) : (digitCh d).isWhitespace = false := by
  interval_cases d <;> decide

lemma natDecimalGo_not_ws (fuel n : Nat) :
    ∀ c ∈ natDecimalGo fuel n, c.isWhitespace = false := by
  induction fuel generalizing n with
  | zero => intro c hc; simp [natDecimalGo] at hc
  | succ fuel ih =>
    intro c hc
    by_cases hn : n < 10
    · simp only [natDecimalGo, if_pos hn, List.mem_singleton] at hc
      subst hc
      exact digitCh_not_ws n hn
    · simp only [natDecimalGo, if_neg hn, List.mem_append, List.mem_singleton] at hc
      rcases hc with hc | hc
      · exact ih (n / 10) c hc
      · subst hc
        exact digitCh_not_ws (n % 10) (Nat.mod_lt n (by omega))

lemma natDecimal_ne_nil (n : Nat) : natDecimal n ≠ [] := by
  simp only [natDecimal, natDecimalGo]
  by_cases hn : n < 10 <;> simp [hn]

lemma pyStr_not_ws (i : Int) : ∀ c ∈ (pyStr i).toList, c.isWhitespace = false := by
  cases i with
  | ofNat n => exact natDecimalGo_not_ws (n + 1) n
  | negSucc n =>
    intro c hc
    rcases List.mem_cons.mp hc with hc | hc
    · subst hc; decide
    · exact natDecimalGo_not_ws (n + 1 + 1) (n + 1) c hc

lemma pyStrip_pyStr (i : Int) : pyStrip (pyStr i) = pyStr i :=
  pyStrip_eq_self _ (pyStr_not_ws i)

lemma pyStr_ne_empty (i : Int) : pyStr i ≠ "" := by
  cases i with
  | ofNat n => exact fun h => natDecimal_ne_nil n (congrArg String.data h)
  | negSucc n =>
    intro h
    have h2 : '-' :: natDecimal (n + 1) = [] := congrArg String.data h
    exact List.cons_ne_nil _ _ h2

lemma filterMap_if_eq_map_filter {α β : Type} (p : α → Prop) [DecidablePred p]
    (f : α → β) (l : List α) :
    (l.filterMap fun a => if p a then some (f a) else none) =
      (l.filter fun a => decide (p a)).map f := by
  induction l with
  | nil => rfl
  | cons a l ih =>
    simp only [List.filterMap_cons, List.filter_cons]
    by_cases h : p a <;> simp [h, ih]

lemma read_message_ids_map_pyStr (ids : List Int) :
    read_message_ids (ids.map pyStr) = ids.map pyStr := by
  induction ids with
  | nil => rfl
  | cons id ids ih =>
    simp only [List.map_cons, read_message_ids, List.filterMap_cons] at *
    rw [pyStrip_pyStr, if_neg (pyStr_ne_empty id), ih]

lemma record_message_ids_eq (ids : List Int) (messages_file : List String) :
    record_message_ids ids messages_file = messages_file ++ ids.map pyStr := by
  induction ids generalizing messages_file with
  | nil => simp [record_message_ids]
  | cons id ids ih =>
    simp [record_message_ids, send_telegram_message, ih]

/-! ### Claim theorems: ledger, cleanup gate, send path -/

/-- C3: for every starting ledger state and every transport behaviour on
individual deletions (including one failing every delete call), after
`clear_chat_history` returns, the ledger file records nothing: it is truncated
to empty (or was absent) no matter how many deletions failed. -/
theorem C3_clear_always_empties (delete_message : String → Bool)
    (messages_file : Option (List String)) :
    ledger_ids (clear_chat_history delete_message messages_file false).messages_file
      = [] := by
  cases messages_file with
  | none => rfl
  | some lines =>
    cases hr : read_message_ids lines with
    | nil =>
      have e : clear_chat_history delete_message (some lines) false =
          ⟨some [], [], 0, 0⟩ := by
        simp only [clear_chat_history]
        rw [hr]
        rfl
      rw [e]
      rfl
    | cons a l =>
      have e : clear_chat_history delete_message (some lines) false =
          ⟨some [], (a :: l).reverse,
           (a :: l).reverse.countP delete_message,
           (a :: l).reverse.countP (fun id => !delete_message id)⟩ := by
        simp only [clear_chat_history]
        rw [hr]
        rfl
      rw [e]
      rfl

/-- C7: recording a sequence of provider message identifiers through the send
path into an empty ledger, then re-reading the ledger file the way a freshly
started process does before any cleanup, yields the same identifiers (in their
written decimal rendering) in the same order. -/
theorem C7_record_roundtrip (ids : List Int) :
    read_message_ids (record_message_ids ids []) = ids.map pyStr := by
  rw [record_message_ids_eq, List.nil_append, read_message_ids_map_pyStr]

/-- C8: with a ledger holding identifiers recorded in append order,
`clear_chat_history` attempts deletion of every recorded identifier in
newest-to-oldest order, and the attempt sequence is the same for every
transport behaviour — so it continues past any per-identifier failure. -/
theorem C8_delete_newest_first (delete_message : String → Bool) (ids : List Int) :
    (clear_chat_history delete_message (some (ids.map pyStr)) false).attempts =
      (ids.map pyStr).reverse := by
  by_cases h : (ids.map pyStr).isEmpty
  · rw [List.isEmpty_iff] at h
    simp [clear_chat_history, read_message_ids_map_pyStr, h, read_message_ids]
  · simp [clear_chat_history, read_message_ids_map_pyStr, h]

/-- C9: if the ledger read inside `clear_chat_history` fails, the exception is
caught inside that function: nothing is deleted, the ledger file is left as it
was, and the caller still overwrites the cleanup marker with today's date — so
the failed drain is not re-attempted by a later start on the same date. -/
theorem C9_drain_failure_still_marks (today_str : String) (marker : Option String)
    (delete_message delete_message2 : String → Bool) (lines : List String)
    (messages_file2 : Option (List String)) (read_fails2 : Bool)
    (h1 : pyStrip today_str = today_str)
    (h2 : last_cleanup_date marker ≠ today_str) :
    (daily_cleanup_check today_str marker delete_message (some lines) true).ran
        = true ∧
    (daily_cleanup_check today_str marker delete_message (some lines)
        true).last_cleanup_file = some today_str ∧
    (daily_cleanup_check today_str marker delete_message (some lines)
        true).messages_file = some lines ∧
    (daily_cleanup_check today_str marker delete_message (some lines)
        true).attempts = [] ∧
    (daily_cleanup_check today_str (some today_str) delete_message2 messages_file2
        read_fails2).ran = false := by
  have e : daily_cleanup_check today_str marker delete_message (some lines) true =
      ⟨true, some today_str, some lines, []⟩ := by
    unfold daily_cleanup_check
    rw [if_pos h2]
    rfl
  have h1x : last_cleanup_date (some today_str) = today_str := h1
  have e2 : daily_cleanup_check today_str (some today_str) delete_message2
      messages_file2 read_fails2 = ⟨false, some today_str, messages_file2, []⟩ := by
    unfold daily_cleanup_check
    rw [if_neg (not_not_intro h1x)]
  exact ⟨by rw [e], by rw [e], by rw [e], by rw [e], by rw [e2]⟩

/-- C9 witness: a concrete failing drain still advances the marker and leaves
the ledger intact, and a restart on the same date skips. -/
theorem C9_witness :
    pyStrip "2024-01-01" = "2024-01-01" ∧
    last_cleanup_date none ≠ "2024-01-01" ∧
    ((daily_cleanup_check "2024-01-01" none (fun _ => false) (some ["5"]) true).ran
        = true ∧
     (daily_cleanup_check "2024-01-01" none (fun _ => false) (some ["5"])
        true).last_cleanup_file = some "2024-01-01" ∧
     (daily_cleanup_check "2024-01-01" none (fun _ => false) (some ["5"])
        true).messages_file = some ["5"] ∧
     (daily_cleanup_check "2024-01-01" none (fun _ => false) (some ["5"])
        true).attempts = [] ∧
     (daily_cleanup_check "2024-01-01" (some "2024-01-01") (fun _ => false) none
        false).ran = false) :=
  ⟨by decide, by decide,
   C9_drain_failure_still_marks "2024-01-01" none (fun _ => false) (fun _ => false)
     ["5"] none false (by decide) (by decide)⟩

/-- C4: the daily-cleanup check runs the drain iff the persisted marker date
(absent file reading as the empty string) differs from today's date; when it
runs it persists today's date as the new marker; a skip leaves the marker
unchanged; and a second start sharing the resulting marker file on the same
date never runs again. -/
theorem C4_cleanup_once_per_date (today_str : String) (marker : Option String)
    (delete_message delete_message2 : String → Bool)
    (messages_file messages_file2 : Option (List String))
    (read_fails read_fails2 : Bool)
    (h1 : today_str ≠ "") (h2 : pyStrip today_str = today_str) :
    ((daily_cleanup_check today_str marker delete_message messages_file
        read_fails).ran = true ↔ last_cleanup_date marker ≠ today_str) ∧
    (marker = none →
      (daily_cleanup_check today_str marker delete_message messages_file
        read_fails).ran = true) ∧
    ((daily_cleanup_check today_str marker delete_message messages_file
        read_fails).ran = true →
      (daily_cleanup_check today_str marker delete_message messages_file
        read_fails).last_cleanup_file = some today_str) ∧
    ((daily_cleanup_check today_str marker delete_message messages_file
        read_fails).ran = false →
      (daily_cleanup_check today_str marker delete_message messages_file
        read_fails).last_cleanup_file = marker) ∧
    (daily_cleanup_check today_str
      (daily_cleanup_check today_str marker delete_message messages_file
        read_fails).last_cleanup_file
      delete_message2 messages_file2 read_fails2).ran = false := by
  by_cases hm : last_cleanup_date marker = today_str
  · have e : daily_cleanup_check today_str marker delete_message messages_file
        read_fails = ⟨false, marker, messages_file, []⟩ := by
      unfold daily_cleanup_check
      rw [if_neg (not_not_intro hm)]
    refine ⟨?_, ?_, ?_, ?_, ?_⟩
    · rw [e]
      simp [hm]
    · intro hnone
      subst hnone
      exact absurd hm.symm h1
    · rw [e]
      intro hc
      exact Bool.noConfusion hc
    · rw [e]
      intro _
      rfl
    · rw [e]
      unfold daily_cleanup_check
      rw [if_neg (not_not_intro hm)]
  · have e : daily_cleanup_check today_str marker delete_message messages_file
        read_fails =
        ⟨true, some today_str,
         (clear_chat_history delete_message messages_file read_fails).messages_file,
         (clear_chat_history delete_message messages_file read_fails).attempts⟩ := by
      unfold daily_cleanup_check
      rw [if_pos hm]
    have h2x : last_cleanup_date (some today_str) = today_str := h2
    refine ⟨?_, ?_, ?_, ?_, ?_⟩
    · rw [e]
      simp [hm]
    · intro _
      rw [e]
    · intro _
      rw [e]
    · rw [e]
      intro hc
      exact Bool.noConfusion hc
    · rw [e]
      unfold daily_cleanup_check
      rw [if_neg (not_not_intro h2x)]

/-- C4 witness: with an absent marker and a concrete date, the first start runs
the drain and persists the date, and a second start on the same date skips. -/
theorem C4_witness :
    ("2024-01-01" : String) ≠ "" ∧
    pyStrip "2024-01-01" = "2024-01-01" ∧
    (((daily_cleanup_check "2024-01-01" none (fun _ => false) (some ["5"])
        false).ran = true ↔ last_cleanup_date none ≠ "2024-01-01") ∧
     ((none : Option String) = none →
      (daily_cleanup_check "2024-01-01" none (fun _ => false) (some ["5"])
        false).ran = true) ∧
     ((daily_cleanup_check "2024-01-01" none (fun _ => false) (some ["5"])
        false).ran = true →
      (daily_cleanup_check "2024-01-01" none (fun _ => false) (some ["5"])
        false).last_cleanup_file = some "2024-01-01") ∧
     ((daily_cleanup_check "2024-01-01" none (fun _ => false) (some ["5"])
        false).ran = false →
      (daily_cleanup_check "2024-01-01" none (fun _ => false) (some ["5"])
        false).last_cleanup_file = none) ∧
     (daily_cleanup_check "2024-01-01"
       (daily_cleanup_check "2024-01-01" none (fun _ => false) (some ["5"])
         false).last_cleanup_file
       (fun _ => true) none true).ran = false) :=
  ⟨by decide, by decide,
   C4_cleanup_once_per_date "2024-01-01" none (fun _ => false) (fun _ => true)
     (some ["5"]) none false true (by decide) (by decide)⟩

/-- C10: whenever the POST itself succeeds, `send_telegram_message` returns
`True` even if appending the provider message identifier to the ledger file
fails: the recording failure is swallowed and the ledger file is unchanged. -/
theorem C10_send_true_despite_record_failure (env : SendEnv)
    (messages_file : List String)
    (hcred : env.credentials_ok = true) (hpost : env.post_ok = true)
    (hwrite : env.write_ok = false) :
    (send_telegram_message env messages_file).1 = true ∧
    (send_telegram_message env messages_file).2 = messages_file := by
  simp [send_telegram_message, hcred, hpost, hwrite]

/-- C10 witness: a concrete successful send with a failing ledger append still
returns `True` and records nothing. -/
theorem C10_witness :
    (⟨true, true, true, false, 42⟩ : SendEnv).credentials_ok = true ∧
    (⟨true, true, true, false, 42⟩ : SendEnv).post_ok = true ∧
    (⟨true, true, true, false, 42⟩ : SendEnv).write_ok = false ∧
    ((send_telegram_message ⟨true, true, true, false, 42⟩ ["9"]).1 = true ∧
     (send_telegram_message ⟨true, true, true, false, 42⟩ ["9"]).2 = ["9"]) :=
  ⟨rfl, rfl, rfl,
   C10_send_true_despite_record_failure ⟨true, true, true, false, 42⟩ ["9"]
     rfl rfl rfl⟩

/-! ### Claim theorems: session calendar and scheduler -/

/-- C2: for every occurrence returned by `get_next_sessions` and every
configured lead time `L`, `check_and_send_notifications` sends a notification
on the current tick iff `delta = (start_utc3 - L minutes) - now_utc3` in
seconds satisfies `0 ≤ delta ≤ 60`. -/
theorem C2_fire_iff_window (loc : Int → Int → Int) (sessions : List SessionDef)
    (ny_date utc3_now : Int) (occ : SessionOcc) (L : Int)
    (hocc : occ ∈ get_next_sessions loc sessions ny_date utc3_now)
    (hL : L ∈ NOTIFICATION_MINUTES_BEFORE) :
    (occ, L) ∈ check_and_send_notifications loc sessions ny_date utc3_now ↔
      (0 ≤ (occ.start_utc3 - 60 * L) - utc3_now ∧
       (occ.start_utc3 - 60 * L) - utc3_now ≤ 60) := by
  simp only [check_and_send_notifications, List.mem_flatMap, List.mem_filterMap,
    Option.ite_none_right_eq_some, Option.some.injEq, Prod.mk.injEq, fireWindow,
    decide_eq_true_eq]
  constructor
  · rintro ⟨s, _, m, _, hw, rfl, rfl⟩
    exact hw
  · intro hw
    exact ⟨occ, hocc, L, hL, hw, rfl, rfl⟩

/-- C2 witness: a concrete tick 50 seconds before the 30-minute notification
instant of Session 1 fires exactly per the window test. -/
theorem C2_witness :
    (⟨"Session 1", 10800, 14400⟩ : SessionOcc) ∈
        get_next_sessions locFix SESSIONS_NY 0 8950 ∧
    (30 : Int) ∈ NOTIFICATION_MINUTES_BEFORE ∧
    (((⟨"Session 1", 10800, 14400⟩, 30) : SessionOcc × Int) ∈
        check_and_send_notifications locFix SESSIONS_NY 0 8950 ↔
      (0 ≤ ((10800 : Int) - 60 * 30) - 8950 ∧
       ((10800 : Int) - 60 * 30) - 8950 ≤ 60)) :=
  ⟨by decide, by decide,
   C2_fire_iff_window locFix SESSIONS_NY 0 8950 ⟨"Session 1", 10800, 14400⟩ 30
     (by decide) (by decide)⟩

/-- C1 counterexample: the pair (Session 1 resolved on day 0, lead time 30) has
its notification instant at 9000; the scheduler fires for it at tick 8940
(delta = 60) and again one tick (60 s) later at tick 9000 (delta = 0), so it
does not fire exactly once for that pair on a fixed 60-second tick grid. -/
theorem C1_counterexample_double_fire :
    ((⟨"Session 1", 10800, 14400⟩, 30) : SessionOcc × Int) ∈
        check_and_send_notifications locFix SESSIONS_NY 0 8940 ∧
    ((⟨"Session 1", 10800, 14400⟩, 30) : SessionOcc × Int) ∈
        check_and_send_notifications locFix SESSIONS_NY 0 9000 := by
  exact ⟨by decide, by decide⟩

/-- C1 (amended): on a fixed tick grid `t0 + 60k`, the firing test for a
notification instant `N` succeeds at exactly one tick when `N` is not aligned
to the grid (`60` does not divide `N - t0`), and at exactly the two consecutive
ticks with delta 60 and delta 0 when it is aligned. -/
theorem C1_amended_fire_ticks (t0 N : Int) :
    ∃ k0 : Int, ∀ k : Int,
      (fireWindow N (t0 + 60 * k) = true ↔
        (k = k0 ∨ ((60 : Int) ∣ (N - t0) ∧ k = k0 - 1))) := by
  refine ⟨(N - t0) / 60, fun k => ?_⟩
  simp only [fireWindow, decide_eq_true_eq]
  omega

/-- C5: when every one of today's sessions has already ended, the returned
list is every configured session resolved against tomorrow's reference date,
and it is nonempty whenever the configuration is. -/
theorem C5_all_ended_returns_tomorrow (loc : Int → Int → Int)
    (sessions : List SessionDef) (ny_date utc3_now : Int)
    (h : ∀ session ∈ sessions,
      (get_session_times_utc3 loc session ny_date).2 ≤ utc3_now) :
    get_next_sessions loc sessions ny_date utc3_now =
      sessions.map (fun session => session_occ loc session (ny_date + 1)) ∧
    (sessions ≠ [] → get_next_sessions loc sessions ny_date utc3_now ≠ []) := by
  have h0 : sessions.filterMap (fun session =>
      if utc3_now < (get_session_times_utc3 loc session ny_date).2 then
        some (session_occ loc session ny_date)
      else none) = [] := by
    rw [List.filterMap_eq_nil_iff]
    intro a ha
    rw [if_neg (not_lt.mpr (h a ha))]
  have e : get_next_sessions loc sessions ny_date utc3_now =
      sessions.map (fun session => session_occ loc session (ny_date + 1)) := by
    unfold get_next_sessions
    rw [h0]
    rfl
  refine ⟨e, fun hne => ?_⟩
  rw [e]
  simp [hne]

/-- C5 witness: at a concrete instant past all of today's session ends, the
scheduler returns tomorrow's full session list. -/
theorem C5_witness :
    (∀ session ∈ SESSIONS_NY,
      (get_session_times_utc3 locFix session 0).2 ≤ (60000 : Int)) ∧
    (get_next_sessions locFix SESSIONS_NY 0 60000 =
      SESSIONS_NY.map (fun session => session_occ locFix session (0 + 1)) ∧
     (SESSIONS_NY ≠ [] → get_next_sessions locFix SESSIONS_NY 0 60000 ≠ [])) :=
  ⟨by decide, C5_all_ended_returns_tomorrow locFix SESSIONS_NY 0 60000 (by decide)⟩

/-- C6: when at least one of today's sessions has not yet ended,
`get_next_sessions` returns exactly the configured sessions resolved against
today whose end is still in the future, in configuration order. -/
theorem C6_today_filter_in_order (loc : Int → Int → Int)
    (sessions : List SessionDef) (ny_date utc3_now : Int)
    (h : ∃ session ∈ sessions,
      utc3_now < (get_session_times_utc3 loc session ny_date).2) :
    get_next_sessions loc sessions ny_date utc3_now =
      (sessions.filter (fun session =>
        utc3_now < (get_session_times_utc3 loc session ny_date).2)).map
        (fun session => session_occ loc session ny_date) := by
  have hfil := filterMap_if_eq_map_filter
    (fun session => utc3_now < (get_session_times_utc3 loc session ny_date).2)
    (fun session => session_occ loc session ny_date) sessions
  have hne : sessions.filterMap (fun session =>
      if utc3_now < (get_session_times_utc3 loc session ny_date).2 then
        some (session_occ loc session ny_date)
      else none) ≠ [] := by
    rw [hfil]
    obtain ⟨s, hs, hlt⟩ := h
    intro hc
    rw [List.map_eq_nil_iff, List.filter_eq_nil_iff] at hc
    exact hc s hs (by simpa using hlt)
  unfold get_next_sessions
  rw [if_neg (by rw [List.isEmpty_iff]; exact hne)]
  exact hfil

/-- C6 witness: at a concrete instant before any session has ended, the
scheduler returns today's still-live sessions in configuration order. -/
theorem C6_witness :
    (∃ session ∈ SESSIONS_NY,
      (0 : Int) < (get_session_times_utc3 locFix session 0).2) ∧
    get_next_sessions locFix SESSIONS_NY 0 0 =
      (SESSIONS_NY.filter (fun session =>
        (0 : Int) < (get_session_times_utc3 locFix session 0).2)).map
        (fun session => session_occ locFix session 0) :=
  ⟨by decide, C6_today_filter_in_order locFix SESSIONS_NY 0 0 (by decide)⟩

end SilverBullet
